import Mathlib

/-!
Verification of the MineBench front-end Telemetry & Session Relay.

Shallow embedding of the relay code:
  * `src/src/App.tsx` — the Session Orchestrator (React component `App`):
    handlers `authenticateUser`, `startMiner`, `stopMiner`, `fetchStats`,
    the bounded telemetry window (`history`) and the log buffer.
  * `src/my-miner-app/src/services/minerApi.ts` — `MinerApiClient.request`
    (Backend Client) and `MinerWebSocketClient` (Realtime Channel).

Conventions of the embedding:
  * JavaScript numbers used by the relay are modelled as `ℚ` (hashrates,
    temperatures, balances) or `Int` (millisecond timestamps); the values
    appearing in the claims are exactly representable, so no floating-point
    rounding is modelled.
  * Network and IPC effects are an oracle (`Env`): each call site reads its
    outcome from a dedicated `Except` field, `.error` meaning the awaited
    promise rejected (a thrown exception).
  * A React event handler reads component state through its render-time
    closure (a snapshot) while state setters produce the next state; a
    handler is a function from the snapshot to the next state, and the
    backend/IPC calls it issues are returned as an `ApiCall` trace.
  * `parseFloat`, `JSON.stringify`, `toLocaleTimeString` and `toFixed`
    formatting are abstracted: the oracle supplies already-parsed numeric
    values and a time string; log text keeps the source wording but not the
    numeric formatting.

The file is organised as definitions first (telemetry window, Realtime
Channel state machine, Backend Client request, Session Orchestrator
handlers, concrete fixtures), followed by the theorems settling the claims.
-/

/-- One charted telemetry sample (`StatsPoint` in App.tsx): local time
string, hashrate in MH/s, GPU temperature in Celsius. -/
structure StatsPoint where
  time : String
  hashrate : ℚ
  temp : ℚ
deriving DecidableEq, Repr

/-- Embedding of `setHistory(prev => [...prev.slice(-20), point])` in
`fetchStats` (App.tsx line 179): keep the last 20 entries of the previous
window, then append the new sample.  `prev.slice(-20)` is the suffix of
length `min 20 prev.length`, i.e. `prev.drop (prev.length - 20)`. -/
def pushHistory (prev : List StatsPoint) (point : StatsPoint) : List StatsPoint :=
  prev.drop (prev.length - 20) ++ [point]

/-- The telemetry window produced by a sequence of polls that each yielded a
sample, starting from the initial empty `history` state. -/
def runHistory (points : List StatsPoint) : List StatsPoint :=
  points.foldl pushHistory []

/-!
Realtime Channel — `MinerWebSocketClient` (minerApi.ts lines 92–155).

The client is modelled as a state machine driven by the events the browser
can deliver.  `ws` mirrors the `this.ws` field as the `readyState` of the
current socket (`none` = `null`); the WebSocket readyState codes are the
standard numeric constants, `WebSocket.OPEN = 1`.  `liveSockets` counts the
sockets that have been constructed and whose `close` event has not yet
fired — `disconnect()` calls `ws.close()` and nulls the field, but the
socket object and its `onclose` handler survive until the browser fires the
close event.  `pendingReconnects` lists the delays of the outstanding
`setTimeout(() => this.connect(), this.reconnectInterval)` timers created by
`onclose`.  `sent` records the frames actually written to an open socket.
-/

/-- The `WebSocket.OPEN` readyState constant. -/
def WebSocketOPEN : Nat := 1

/-- The fixed reconnection delay `this.reconnectInterval = 5000` (ms). -/
def reconnectInterval : Nat := 5000

structure WsState where
  ws : Option Nat
  liveSockets : Nat
  pendingReconnects : List Nat
  sent : List (String × String)
deriving DecidableEq, Repr

/-- Events delivered to the client: its own method calls (`connect`, `send`,
`disconnect`), the socket callbacks (`onopen`, `onclose`, `onerror`), and a
scheduled reconnection timer firing. -/
inductive WsEvent where
  | connectCall
  | openFire
  | closeFire
  | errorFire
  | sendCall (type : String) (payload : String)
  | disconnectCall
  | reconnectFire
deriving DecidableEq, Repr

/-- Embedding of `connect()`: constructs a new WebSocket (readyState
CONNECTING = 0) and installs the handlers.  Any previous socket keeps its
handlers and stays live until its own close event fires. -/
def wsConnect (s : WsState) : WsState :=
  { s with ws := some 0, liveSockets := s.liveSockets + 1 }

/-- One step of the client.  `onclose` (minerApi.ts lines 122–125) logs and
unconditionally schedules `connect()` after `reconnectInterval` ms — there is
no flag consulted and no timer cancelled anywhere in the class.
`send` (lines 135–139) writes only when `this.ws?.readyState === WebSocket.OPEN`.
`disconnect()` (lines 149–154) calls `close()` on the current socket and nulls
`this.ws`; the close event of that socket is still pending. -/
def wsStep (s : WsState) : WsEvent → WsState
  | .connectCall => wsConnect s
  | .openFire => { s with ws := s.ws.map fun _ => WebSocketOPEN }
  | .closeFire =>
      if s.liveSockets = 0 then s
      else { s with liveSockets := s.liveSockets - 1,
                    pendingReconnects := s.pendingReconnects ++ [reconnectInterval] }
  | .errorFire => s
  | .sendCall t p =>
      if s.ws = some WebSocketOPEN then { s with sent := s.sent ++ [(t, p)] } else s
  | .disconnectCall =>
      match s.ws with
      | none => s
      | some _ => { s with ws := none }
  | .reconnectFire =>
      match s.pendingReconnects with
      | [] => s
      | _ :: rest => wsConnect { s with pendingReconnects := rest }

/-- A fresh client: `this.ws = null`, nothing scheduled, nothing sent. -/
def wsInit : WsState := ⟨none, 0, [], []⟩

/-- Run the client over a sequence of events. -/
def wsRun (events : List WsEvent) : WsState :=
  events.foldl wsStep wsInit

/-!
Backend Client — `MinerApiClient.request` (minerApi.ts lines 14–35).

The method builds JSON headers, attaches the stored bearer token when
present, performs the fetch, throws `new Error` on any non-ok status and
otherwise returns the parsed JSON body.  The response is modelled with its
status code, reason phrase (`statusText`) and already-parsed body of an
arbitrary type `β`; `response.ok` is the fetch-spec predicate
`200 ≤ status ≤ 299`.
-/

structure HttpResponse (β : Type) where
  status : Nat
  statusText : String
  body : β
deriving DecidableEq, Repr

/-- The `response.ok` predicate: status in the inclusive range 200–299. -/
def respOk {β : Type} (r : HttpResponse β) : Bool :=
  200 ≤ r.status && r.status ≤ 299

/-- The headers `request` sends: JSON content type plus, when a token is
stored, the bearer authorization header. -/
def buildHeaders (token : Option String) : List (String × String) :=
  ("Content-Type", "application/json") ::
    (match token with
     | some t => [("Authorization", "Bearer " ++ t)]
     | none => [])

/-- Embedding of the response handling of `MinerApiClient.request`: on a
non-ok status throw `new Error` with the message built from the status and
reason phrase; on success return `response.json()`. -/
def request {β : Type} (r : HttpResponse β) : Except String β :=
  if respOk r then Except.ok r.body
  else Except.error ("API Error: " ++ toString r.status ++ " " ++ r.statusText)

/-!
Session Orchestrator — component `App` (App.tsx).

The component state is the `useState` fields the relay logic reads and
writes.  Each handler takes the render-time snapshot of that state (what
its closure sees) and an environment oracle giving the outcome of every
awaited call, and returns the state after all setter effects together with
the ordered trace of IPC/REST/WebSocket calls it issued.
-/

/-- The `MinerUser` payload (minerApi.ts lines 166–172). -/
structure MinerUser where
  id : String
  walletAddress : String
  username : String
  virtualBalance : ℚ
  totalMined : ℚ
deriving DecidableEq, Repr

/-- Payload of a successful `POST /users/auth`. -/
structure AuthResponse where
  token : String
  user : MinerUser
deriving DecidableEq, Repr

/-- Payload of a successful `GET /wallet/balance/:userId`; `virtualBalance`
arrives as a string and is read with `parseFloat`, abstracted here as the
parsed numeric value. -/
structure BalanceResponse where
  virtualBalance : ℚ
deriving DecidableEq, Repr

/-- Payload of a successful `POST /mining/start`. -/
structure SessionResponse where
  sessionId : String
deriving DecidableEq, Repr

/-- One GPU entry of the local `GET /summary` reading: hashrate in H/s and
temperature in °C. -/
structure GpuReading where
  hashrate : ℚ
  temperature : ℚ
deriving DecidableEq, Repr

/-- The parsed `GET /summary` body; a missing or empty `gpus` field is the
empty list. -/
structure SummaryData where
  gpus : List GpuReading
deriving DecidableEq, Repr

/-- A call issued by a handler, in issue order: Electron IPC invocations,
Backend Client REST operations, and Realtime Channel pushes. -/
inductive ApiCall where
  | electronInvoke (cmd : String)
  | authenticate (walletAddress : String)
  | getWalletBalance (userId : String)
  | startMiningSession (userId algorithm difficulty gpuInfo : String)
  | updateMiningSession (sessionId : String) (hashRate : ℚ) (duration : Int)
  | stopMiningSession (sessionId : String)
  | sendMiningStats (userId sessionId : String) (hashRate temperature power : ℚ)
deriving DecidableEq, Repr

/-- The REST operations of the Backend Client (as opposed to local Electron
IPC and best-effort Realtime Channel pushes). -/
def ApiCall.isBackendRest : ApiCall → Bool
  | .authenticate _ => true
  | .getWalletBalance _ => true
  | .startMiningSession _ _ _ _ => true
  | .updateMiningSession _ _ _ => true
  | .stopMiningSession _ => true
  | .electronInvoke _ => false
  | .sendMiningStats _ _ _ _ _ => false

def ApiCall.isStartMiningSession : ApiCall → Bool
  | .startMiningSession _ _ _ _ => true
  | _ => false

def ApiCall.isSendMiningStats : ApiCall → Bool
  | .sendMiningStats _ _ _ _ _ => true
  | _ => false

def ApiCall.isUpdateMiningSession : ApiCall → Bool
  | .updateMiningSession _ _ _ => true
  | _ => false

/-- The component state of `App` (App.tsx lines 22–30) restricted to the
fields the relay logic touches. -/
structure AppState where
  wallet : String
  worker : String
  status : String
  history : List StatsPoint
  log : List String
  currentUser : Option MinerUser
  miningSessionId : Option String
  balance : ℚ
  miningStartTime : Option Int
deriving DecidableEq, Repr

/-- Embedding of `addLog` (App.tsx lines 32–34): keep the last 100 entries
and append the new time-stamped message. -/
def addLog (lg : List String) (ts msg : String) : List String :=
  lg.drop (lg.length - 100) ++ [ts ++ " - " ++ msg]

/-- Apply `addLog` to the log field of the component state. -/
def appAddLog (ts : String) (s : AppState) (msg : String) : AppState :=
  { s with log := addLog s.log ts msg }

/-- Outcome oracle for one handler invocation: the result of each awaited
call site, the clock, the formatted local time string, and the
`Math.random() < 0.1` draw used to rate-limit the waiting log line. -/
structure Env where
  backendConnected : Bool
  authResult : Except String AuthResponse
  authBalanceResult : Except String BalanceResponse
  electronStartResult : Except String String
  startSessionResult : Except String SessionResponse
  electronStopResult : Except String String
  stopSessionResult : Except String Unit
  stopBalanceResult : Except String BalanceResponse
  summaryResult : Except String SummaryData
  updateResult : Except String Unit
  now : Int
  timeString : String
  logCoin : Bool
deriving Repr

/-- JavaScript truthiness of `miningSessionId` (a string or `null`): the
empty string is falsy. -/
def strTruthy : Option String → Bool
  | some s => s ≠ ""
  | none => false

/-- JavaScript truthiness of `miningStartTime` (a number or `null`): zero is
falsy. -/
def intTruthy : Option Int → Bool
  | some n => n ≠ 0
  | none => false

/-- Embedding of `authenticateUser` (App.tsx lines 69–99), called with the
render snapshot `snap` (what the closure reads) and the state `acc`
accumulated so far by the calling handler.  Returns the new state, the
calls issued, and the boolean result.  The backend-reachability probe and
its `fetch` are abstracted into `env.backendConnected` (the probe itself
catches every error and returns a boolean).  Note that `setCurrentUser`
runs before the balance fetch, so a failing balance call leaves the
identity set while returning `false` through the catch. -/
def authenticateUser (env : Env) (snap acc : AppState) :
    AppState × List ApiCall × Bool :=
  if env.backendConnected = false then
    let acc := appAddLog env.timeString acc "❌ Backend server not running!"
    let acc := appAddLog env.timeString acc
      "💡 Please start backend: cd backend && npm run dev"
    (acc, [], false)
  else if snap.currentUser.isSome then
    (acc, [], true)
  else
    let acc := appAddLog env.timeString acc "Authenticating user..."
    let calls := [ApiCall.authenticate snap.wallet]
    match env.authResult with
    | .error _ =>
        (appAddLog env.timeString acc "Authentication failed", calls, false)
    | .ok auth =>
        let acc := { acc with currentUser := some auth.user }
        let calls := calls ++ [ApiCall.getWalletBalance auth.user.id]
        match env.authBalanceResult with
        | .error _ =>
            (appAddLog env.timeString acc "Authentication failed", calls, false)
        | .ok bal =>
            let acc := { acc with balance := bal.virtualBalance }
            let acc := appAddLog env.timeString acc
              ("Authenticated as " ++ auth.user.username)
            let acc := appAddLog env.timeString acc "Current balance"
            (acc, calls, true)

/-- Embedding of `startMiner` (App.tsx lines 101–135).  After
`authenticateUser` returns, the guard re-reads `currentUser` from the
render-time closure of the handler (`snap`), not the freshly set state —
the React state setter does not update the captured variable. -/
def startMiner (env : Env) (snap : AppState) : AppState × List ApiCall :=
  let acc := appAddLog env.timeString snap "Starting miner..."
  let r := authenticateUser env snap acc
  let acc := r.1
  let calls := r.2.1
  let authSuccess := r.2.2
  if authSuccess = false || snap.currentUser.isNone then
    (appAddLog env.timeString acc "Cannot start mining without authentication",
     calls)
  else
    match snap.currentUser with
    | none =>
        (appAddLog env.timeString acc "Cannot start mining without authentication",
         calls)
    | some user =>
        let acc := appAddLog env.timeString acc "Starting mining process..."
        let calls := calls ++ [ApiCall.electronInvoke "start-miner"]
        match env.electronStartResult with
        | .error _ =>
            ({ appAddLog env.timeString acc "Error starting miner" with
                status := "error" }, calls)
        | .ok _ =>
            let acc := { acc with status := "running" }
            let acc := appAddLog env.timeString acc "Creating mining session..."
            let calls := calls ++
              [ApiCall.startMiningSession user.id "NEXA" "medium"
                ("GPU: " ++ snap.worker)]
            match env.startSessionResult with
            | .error _ =>
                ({ appAddLog env.timeString acc "Error starting miner" with
                    status := "error" }, calls)
            | .ok sr =>
                let acc := { acc with miningSessionId := some sr.sessionId,
                                      miningStartTime := some env.now }
                let acc := appAddLog env.timeString acc "Miner started successfully!"
                let acc := appAddLog env.timeString acc
                  ("Session ID: " ++ sr.sessionId)
                (acc, calls)

/-- Embedding of `stopMiner` (App.tsx lines 137–162).  The backend stop,
balance refresh and session clearing run only under
`if (miningSessionId && currentUser)`; any rejected await jumps to the
catch, which sets the error status and logs without clearing the session. -/
def stopMiner (env : Env) (snap : AppState) : AppState × List ApiCall :=
  let calls := [ApiCall.electronInvoke "stop-miner"]
  match env.electronStopResult with
  | .error _ =>
      ({ appAddLog env.timeString snap "Error stopping miner" with
          status := "error" }, calls)
  | .ok _ =>
      let acc := { snap with status := "stopped" }
      match snap.miningSessionId, snap.currentUser with
      | some sid, some user =>
          if sid = "" then
            (appAddLog env.timeString acc "Miner stopped", calls)
          else
            let calls := calls ++ [ApiCall.stopMiningSession sid]
            match env.stopSessionResult with
            | .error _ =>
                ({ appAddLog env.timeString acc "Error stopping miner" with
                    status := "error" }, calls)
            | .ok _ =>
                let calls := calls ++ [ApiCall.getWalletBalance user.id]
                match env.stopBalanceResult with
                | .error _ =>
                    ({ appAddLog env.timeString acc "Error stopping miner" with
                        status := "error" }, calls)
                | .ok bal =>
                    let acc := { acc with balance := bal.virtualBalance }
                    let acc := appAddLog env.timeString acc "Final balance"
                    let acc := { acc with miningSessionId := none,
                                          miningStartTime := none }
                    (appAddLog env.timeString acc "Miner stopped", calls)
      | _, _ =>
          (appAddLog env.timeString acc "Miner stopped", calls)

/-- Embedding of `fetchStats` (App.tsx lines 164–208).  A failed summary
fetch is swallowed, with a rate-limited waiting log.  A reading with a
first GPU is converted (H/s → MH/s) and appended to the window; with an
active session (`miningSessionId && currentUser && miningStartTime`,
JavaScript truthiness) the REST update is awaited first and, only if it did
not throw, the Realtime Channel push is issued — the inner catch logs to
the console only. -/
def fetchStats (env : Env) (snap : AppState) : AppState × List ApiCall :=
  match env.summaryResult with
  | .error _ =>
      (if env.logCoin then appAddLog env.timeString snap "Waiting for miner stats..."
       else snap, [])
  | .ok data =>
      match data.gpus.head? with
      | none => (snap, [])
      | some gpu =>
          let hashrate := gpu.hashrate / 1000000
          let temp := gpu.temperature
          let point : StatsPoint := ⟨env.timeString, hashrate, temp⟩
          let acc := { snap with history := pushHistory snap.history point }
          let acc := appAddLog env.timeString acc "Miner stats"
          if strTruthy snap.miningSessionId && snap.currentUser.isSome &&
              intTruthy snap.miningStartTime then
            match snap.miningSessionId, snap.currentUser, snap.miningStartTime with
            | some sid, some user, some t0 =>
                let duration := Int.fdiv (env.now - t0) 1000
                let calls := [ApiCall.updateMiningSession sid (hashrate * 1000000) duration]
                match env.updateResult with
                | .error _ => (acc, calls)
                | .ok _ =>
                    (acc, calls ++
                      [ApiCall.sendMiningStats user.id sid (hashrate * 1000000) temp 0])
            | _, _, _ => (acc, [])
          else (acc, [])

/-! Concrete fixtures used by witnesses and counterexamples. -/

def userA : MinerUser := ⟨"u1", "nexa:addr1", "alice", 0, 0⟩

/-- A fresh render snapshot: defaults of the `useState` fields. -/
def snap0 : AppState :=
  ⟨"nexa:addr1", "4070", "stopped", [], [], none, none, 0, none⟩

/-- A snapshot with an authenticated identity and an active session started
at t0 = 1000 ms. -/
def snapActive : AppState :=
  ⟨"nexa:addr1", "4070", "running", [], [], some userA, some "s1", 0, some 1000⟩

/-- An environment where every awaited call succeeds; the clock reads
13000 ms and the summary reports one GPU at 150 MH/s and 65 °C. -/
def envBase : Env :=
  ⟨true, Except.ok ⟨"tok", userA⟩, Except.ok ⟨5⟩, Except.ok "Miner started",
   Except.ok ⟨"s1"⟩, Except.ok "Miner stopped", Except.ok (), Except.ok ⟨7⟩,
   Except.ok ⟨[⟨150000000, 65⟩]⟩, Except.ok (), 13000, "t", false⟩

/-- Variant of `envBase` with a failing `updateMiningSession`. -/
def envUpdateFail : Env := { envBase with updateResult := Except.error "boom" }

/-- Variant of `envBase` with a failing `stopMiningSession`. -/
def envStopFail : Env := { envBase with stopSessionResult := Except.error "boom" }

/-!
Theorems.  Helper lemmas about the telemetry window come first, then the
claim theorems, their witnesses and the counterexamples.
-/

theorem pushHistory_length (prev : List StatsPoint) (p : StatsPoint) :
    (pushHistory prev p).length = min prev.length 20 + 1 := by
  rw [pushHistory, List.length_append, List.length_drop, List.length_singleton]
  omega

theorem pushHistory_suffix {prev tail : List StatsPoint} (p : StatsPoint)
    (h : prev <:+ tail) : pushHistory prev p <:+ tail ++ [p] := by
  rcases h with ⟨t, rfl⟩
  rcases List.drop_suffix (prev.length - 20) prev with ⟨u, hu⟩
  exact ⟨t ++ u, by
    rw [pushHistory, List.append_assoc, ← List.append_assoc u, hu, ← List.append_assoc]⟩

theorem runHistory_aux (points : List StatsPoint) :
    ∀ acc pre : List StatsPoint, acc <:+ pre →
      (points.foldl pushHistory acc).length ≤ 21 ∨ points = [] ∧ points.foldl pushHistory acc = acc := by
  induction points with
  | nil => intro acc pre _; exact Or.inr ⟨rfl, rfl⟩
  | cons p ps ih =>
    intro acc pre hsuf
    rcases ih (pushHistory acc p) (pre ++ [p]) (pushHistory_suffix p hsuf) with h | ⟨hnil, heq⟩
    · exact Or.inl (by simpa using h)
    · left
      simp only [List.foldl_cons, hnil, List.foldl_nil, heq]
      rw [pushHistory_length]
      omega

theorem runHistory_suffix_aux (points : List StatsPoint) :
    ∀ acc pre : List StatsPoint, acc <:+ pre →
      points.foldl pushHistory acc <:+ pre ++ points := by
  induction points with
  | nil => intro acc pre h; simpa using h
  | cons p ps ih =>
    intro acc pre hsuf
    have := ih (pushHistory acc p) (pre ++ [p]) (pushHistory_suffix p hsuf)
    simpa [List.append_assoc] using this

/-- C1, counterexample: the claim bounds the window by 20 entries, but after
21 polls the window holds 21 entries (`prev.slice(-20)` keeps 20 entries
*before* appending, so the steady-state size is 21). -/
theorem history_window_exceeds_20 :
    20 < (runHistory (List.replicate 21 ⟨"t", 150, 65⟩)).length := by
  decide

/-- C1 (amended): for every sequence of stats polls that yield samples, the
telemetry window never holds more than 21 entries, and it is a suffix of the
arrival sequence — entries stay in arrival order and the oldest entry is the
one evicted when the bound is reached. -/
theorem history_window_bounded_ordered (points : List StatsPoint) :
    (runHistory points).length ≤ 21 ∧ runHistory points <:+ points := by
  constructor
  · rcases runHistory_aux points [] [] List.nil_suffix with h | ⟨_, heq⟩
    · exact h
    · simp [runHistory, heq]
  · simpa using runHistory_suffix_aux points [] [] List.nil_suffix

/-- C2: refuted on the code.  Trace: `connect()` opens a socket;
`disconnect()` closes it; the browser then fires the `close` event of that
socket.  The `onclose` handler still runs and schedules a reconnection
attempt after 5000 ms, and when that timer fires the transport is reopened —
`disconnect()` does not suppress auto-reconnection. -/
theorem disconnect_does_not_suppress_reconnect :
    (wsRun [.connectCall, .disconnectCall, .closeFire]).pendingReconnects
        = [reconnectInterval] ∧
      (wsRun [.connectCall, .disconnectCall, .closeFire, .reconnectFire]).ws = some 0 := by
  exact ⟨rfl, rfl⟩

/-- C6: `send(type, payload)` while the connection is not currently open
(no socket, or a socket whose readyState is not `OPEN`) leaves the client
state completely unchanged: nothing is sent, nothing is queued or buffered,
and the call is total (the embedding has no failure path — the guarded
optional chain cannot throw). -/
theorem send_not_open_noop (s : WsState) (t p : String)
    (h : s.ws ≠ some WebSocketOPEN) : wsStep s (.sendCall t p) = s := by
  simp [wsStep, h]

/-- C6 witness: on a client whose socket has been closed
(readyState CLOSED = 3), a concrete `send` is a no-op. -/
theorem send_not_open_noop_witness :
    (⟨some 3, 0, [], []⟩ : WsState).ws ≠ some WebSocketOPEN ∧
      wsStep ⟨some 3, 0, [], []⟩ (.sendCall "mining_stats" "payload")
        = ⟨some 3, 0, [], []⟩ :=
  ⟨by decide, send_not_open_noop _ "mining_stats" "payload" (by decide)⟩

/-- C7: every non-success status, whatever its value, is handled by the one
generic error path whose message carries the status code and reason phrase;
every success returns the parsed JSON body.  There is no status-specific
branching: the error raised is the same formula of `status` and
`statusText` for all non-2xx responses. -/
theorem request_uniform_error {β : Type} (r : HttpResponse β) :
    (respOk r = false →
        request r = Except.error
          ("API Error: " ++ toString r.status ++ " " ++ r.statusText)) ∧
      (respOk r = true → request r = Except.ok r.body) := by
  constructor <;> intro h <;> simp [request, h]

/-- C7 witness: a 404 response raises the generic error carrying
`404 Not Found`; a 200 response returns its body. -/
theorem request_uniform_error_witness :
    respOk (⟨404, "Not Found", "b"⟩ : HttpResponse String) = false ∧
      request (⟨404, "Not Found", "b"⟩ : HttpResponse String)
        = Except.error "API Error: 404 Not Found" ∧
      request (⟨200, "OK", "b"⟩ : HttpResponse String) = Except.ok "b" :=
  ⟨by decide,
   (request_uniform_error ⟨404, "Not Found", "b"⟩).1 (by decide),
   (request_uniform_error ⟨200, "OK", "b"⟩).2 (by decide)⟩

/-- C4: when no Operator Identity exists at invocation time, a start-mining
action whose triggered authentication fully succeeds still refuses to start:
the guard re-reads the closure-captured `currentUser` (still null), so no
`startMiningSession` call is issued and no Session is recorded, even though
the invocation itself stored the fresh identity. -/
theorem startMiner_stale_identity (env : Env) (snap : AppState)
    (auth : AuthResponse) (bal : BalanceResponse)
    (hnone : snap.currentUser = none)
    (hconn : env.backendConnected = true)
    (hauth : env.authResult = Except.ok auth)
    (hbal : env.authBalanceResult = Except.ok bal) :
    (∀ c ∈ (startMiner env snap).2, c.isStartMiningSession = false) ∧
      (startMiner env snap).1.miningSessionId = snap.miningSessionId ∧
      (startMiner env snap).1.miningStartTime = snap.miningStartTime ∧
      (startMiner env snap).1.currentUser = some auth.user := by
  simp [startMiner, authenticateUser, hnone, hconn, hauth, hbal, appAddLog,
    ApiCall.isStartMiningSession]

/-- C4 witness: a concrete fresh snapshot and fully successful backend. -/
theorem startMiner_stale_identity_witness :
    snap0.currentUser = none ∧
      (∀ c ∈ (startMiner envBase snap0).2, c.isStartMiningSession = false) ∧
      (startMiner envBase snap0).1.miningSessionId = none ∧
      (startMiner envBase snap0).1.currentUser = some userA := by
  have h := startMiner_stale_identity envBase snap0 ⟨"tok", userA⟩ ⟨5⟩
    rfl rfl rfl rfl
  exact ⟨rfl, h.1, h.2.1, h.2.2.2⟩

/-- C8: on a stats poll that yields a sample while a Session is active, the
REST update carries `durationSeconds = floor((now - startedAt)/1000)`
(`Math.floor` of the real quotient is `Int.fdiv` on millisecond integers). -/
theorem fetchStats_duration (env : Env) (snap : AppState)
    (sid : String) (user : MinerUser) (t0 : Int)
    (data : SummaryData) (gpu : GpuReading)
    (hsum : env.summaryResult = Except.ok data)
    (hgpu : data.gpus.head? = some gpu)
    (hsid : snap.miningSessionId = some sid) (hside : sid ≠ "")
    (huser : snap.currentUser = some user)
    (ht0 : snap.miningStartTime = some t0) (ht0e : t0 ≠ 0) :
    ApiCall.updateMiningSession sid (gpu.hashrate / 1000000 * 1000000)
      (Int.fdiv (env.now - t0) 1000) ∈ (fetchStats env snap).2 := by
  simp [fetchStats, hsum, hgpu, hsid, huser, ht0, strTruthy, intTruthy,
    hside, ht0e]
  rcases env.updateResult with e | u <;> simp

/-- C8 witness: session started at t0 = 1000 ms, poll at 13000 ms = t0 +
12000 ms; the duration argument is exactly 12. -/
theorem fetchStats_duration_witness :
    Int.fdiv (envBase.now - 1000) 1000 = 12 ∧
      ApiCall.updateMiningSession "s1" 150000000 12 ∈ (fetchStats envBase snapActive).2 := by
  have h := fetchStats_duration envBase snapActive "s1" userA 1000
    ⟨[⟨150000000, 65⟩]⟩ ⟨150000000, 65⟩ rfl rfl rfl (by decide) rfl rfl
    (by decide)
  constructor
  · decide
  · have he : ((150000000 : ℚ) / 1000000 * 1000000) = 150000000 := by norm_num
    have hd : Int.fdiv (envBase.now - 1000) 1000 = 12 := by decide
    rw [he, hd] at h
    exact h

/-- C9: every raw reading with a first GPU yields the sample
`⟨time, hashrate / 1e6, temperature⟩` appended to the window — the derived
hashrate is the raw H/s value divided by 1e6 and the temperature is passed
through unchanged. -/
theorem fetchStats_sample_conversion (env : Env) (snap : AppState)
    (data : SummaryData) (gpu : GpuReading)
    (hsum : env.summaryResult = Except.ok data)
    (hgpu : data.gpus.head? = some gpu) :
    (fetchStats env snap).1.history
      = pushHistory snap.history
          ⟨env.timeString, gpu.hashrate / 1000000, gpu.temperature⟩ := by
  simp only [fetchStats, hsum, hgpu]
  split
  · split
    · simp [appAddLog]
      split
      · simp [appAddLog]
      · simp [appAddLog]
    · simp [appAddLog]
  · simp [appAddLog]

/-- C9 witness: the reading with one GPU at hashrate 150000000 H/s and
temperature 65 yields the sample with hashrate 150 MH/s and temp 65. -/
theorem fetchStats_sample_conversion_witness :
    envBase.summaryResult = Except.ok ⟨[⟨150000000, 65⟩]⟩ ∧
      (fetchStats envBase snap0).1.history = [⟨"t", 150, 65⟩] := by
  have h := fetchStats_sample_conversion envBase snap0
    ⟨[⟨150000000, 65⟩]⟩ ⟨150000000, 65⟩ rfl rfl
  refine ⟨rfl, ?_⟩
  rw [h]
  norm_num [pushHistory, snap0, envBase]

/-- C5: refuted on the code.  With an active Session and a reading in hand,
a rejecting `updateMiningSession` (here `Except.error "boom"`) leaves the
call trace of that poll as the REST update alone: the Realtime Channel
`sendMiningStats` push is never issued, because the push is sequenced after
the awaited REST call inside the same `try` block. -/
theorem update_failure_skips_push_cex :
    envUpdateFail.updateResult = Except.error "boom" ∧
      (fetchStats envUpdateFail snapActive).2
        = [ApiCall.updateMiningSession "s1" 150000000 12] := by
  refine ⟨rfl, ?_⟩
  norm_num [fetchStats, envUpdateFail, envBase, snapActive, strTruthy,
    intTruthy, pushHistory]
  decide

/-- C5 (amended): for a stats poll with an active Session, the REST update
and the Realtime Channel push are sequenced, not independent: the update is
always issued, the push is issued exactly when the update did not throw,
and a thrown `updateMiningSession` suppresses the push for that poll. -/
theorem update_then_push_sequenced (env : Env) (snap : AppState)
    (sid : String) (user : MinerUser) (t0 : Int)
    (data : SummaryData) (gpu : GpuReading)
    (hsum : env.summaryResult = Except.ok data)
    (hgpu : data.gpus.head? = some gpu)
    (hsid : snap.miningSessionId = some sid) (hside : sid ≠ "")
    (huser : snap.currentUser = some user)
    (ht0 : snap.miningStartTime = some t0) (ht0e : t0 ≠ 0) :
    (∃ c ∈ (fetchStats env snap).2, c.isUpdateMiningSession = true) ∧
      (∀ e, env.updateResult = Except.error e →
        ∀ c ∈ (fetchStats env snap).2, c.isSendMiningStats = false) ∧
      (∀ u, env.updateResult = Except.ok u →
        ∃ c ∈ (fetchStats env snap).2, c.isSendMiningStats = true) := by
  refine ⟨?_, ?_, ?_⟩
  · simp [fetchStats, hsum, hgpu, hsid, huser, ht0, strTruthy, intTruthy,
      hside, ht0e]
    rcases env.updateResult with e | u <;>
      simp [ApiCall.isUpdateMiningSession]
  · intro e he
    simp [fetchStats, hsum, hgpu, hsid, huser, ht0, strTruthy, intTruthy,
      hside, ht0e, he, ApiCall.isSendMiningStats]
  · intro u hu
    simp [fetchStats, hsum, hgpu, hsid, huser, ht0, strTruthy, intTruthy,
      hside, ht0e, hu, ApiCall.isSendMiningStats]

/-- C5 (amended) witness: at the failing environment, the update is issued
and no push appears in the trace. -/
theorem update_then_push_sequenced_witness :
    (∃ c ∈ (fetchStats envUpdateFail snapActive).2, c.isUpdateMiningSession = true) ∧
      (∀ c ∈ (fetchStats envUpdateFail snapActive).2, c.isSendMiningStats = false) := by
  have h := update_then_push_sequenced envUpdateFail snapActive "s1" userA 1000
    ⟨[⟨150000000, 65⟩]⟩ ⟨150000000, 65⟩ rfl rfl rfl (by decide) rfl rfl
    (by decide)
  exact ⟨h.1, h.2.1 "boom" rfl⟩

/-- C3: refuted on the code.  With an active Session, when
`stopMiningSession` rejects, the catch in `stopMiner` runs before
`setMiningSessionId(null)` is reached: the local Session survives
(`miningSessionId` is still `some "s1"`), contradicting the claim that it is
cleared. -/
theorem stop_failure_session_survives_cex :
    envStopFail.stopSessionResult = Except.error "boom" ∧
      (stopMiner envStopFail snapActive).1.miningSessionId = some "s1" ∧
      (stopMiner envStopFail snapActive).1.miningStartTime = some 1000 := by
  exact ⟨rfl, by decide, by decide⟩

/-- C3 (amended): during the stop-mining transition with an active Session,
a failing `stopMiningSession` leaves the local Session state (`sessionId`
and `startedAt`) unchanged and sets the error status; the Session is cleared
only when the backend call (and the following balance refresh) succeed. -/
theorem stop_failure_session_retained (env : Env) (snap : AppState)
    (sid : String) (user : MinerUser) (r : String) (e : String)
    (hsid : snap.miningSessionId = some sid) (hside : sid ≠ "")
    (huser : snap.currentUser = some user)
    (hel : env.electronStopResult = Except.ok r)
    (herr : env.stopSessionResult = Except.error e) :
    (stopMiner env snap).1.miningSessionId = some sid ∧
      (stopMiner env snap).1.miningStartTime = snap.miningStartTime ∧
      (stopMiner env snap).1.status = "error" ∧
      (stopMiner env snap).1.balance = snap.balance := by
  simp [stopMiner, hsid, huser, hel, herr, hside, appAddLog]

/-- C3 (amended) witness: concrete failing stop call on an active session. -/
theorem stop_failure_session_retained_witness :
    snapActive.miningSessionId = some "s1" ∧
      envStopFail.stopSessionResult = Except.error "boom" ∧
      (stopMiner envStopFail snapActive).1.miningSessionId = some "s1" ∧
      (stopMiner envStopFail snapActive).1.status = "error" := by
  have h := stop_failure_session_retained envStopFail snapActive "s1" userA
    "Miner stopped" "boom" rfl (by decide) rfl rfl rfl
  exact ⟨rfl, rfl, h.1, h.2.2.1⟩

/-- C10: invoking stop-mining with no Session recorded issues only the local
launcher IPC (`stop-miner`): no Backend Client REST call at all — in
particular neither `stopMiningSession` nor `getWalletBalance` — and the
Operator Identity and Balance state are unchanged. -/
theorem stopMiner_no_session_noop (env : Env) (snap : AppState)
    (h : snap.miningSessionId = none) :
    (stopMiner env snap).2 = [ApiCall.electronInvoke "stop-miner"] ∧
      (∀ c ∈ (stopMiner env snap).2, c.isBackendRest = false) ∧
      (stopMiner env snap).1.currentUser = snap.currentUser ∧
      (stopMiner env snap).1.balance = snap.balance := by
  rcases hel : env.electronStopResult with e | r <;>
    simp [stopMiner, h, hel, appAddLog, ApiCall.isBackendRest]

/-- C10 witness: a fresh snapshot with no session. -/
theorem stopMiner_no_session_noop_witness :
    snap0.miningSessionId = none ∧
      (stopMiner envBase snap0).2 = [ApiCall.electronInvoke "stop-miner"] ∧
      (stopMiner envBase snap0).1.currentUser = snap0.currentUser ∧
      (stopMiner envBase snap0).1.balance = snap0.balance := by
  have h := stopMiner_no_session_noop envBase snap0 rfl
  exact ⟨rfl, h.1, h.2.2.1, h.2.2.2⟩
